import Mathlib

/-
  Verification development for the PodcastPro session-coordination core:
  the Socket.IO signaling relay (server/server.js) and the client-side
  MeetingRoom peer-negotiation logic (two versions of MeetingRoom.tsx).

  Identifiers (socket ids, meeting keys, user ids, payloads, timestamps)
  are only ever compared for equality by the code, so they are modeled as
  naturals.  JS `Map` and `Set` are modeled as association lists / lists
  preserving insertion order, matching JS iteration order.  Socket.IO
  adapter rooms (one room per joined meeting key, plus the automatic
  per-socket room named by the socket's own id) live in a single
  namespace, exactly as in Socket.IO; `socket.to(x)` targets the adapter
  room `x` minus the sender, `io.to(x)` targets the whole adapter room.
-/

namespace Podcast

/-- The authenticated user object `{id, name, email}`; the relay's default
    user is `{name: 'Anonymous'}` (no id, no email). -/
structure User where
  id : Option Nat
  name : Nat
  email : Option Nat
deriving DecidableEq

/-- The `userInfo` payload of a `join-room` message; every field may be
    absent (JS `undefined`). -/
structure UserInfo where
  userId : Option Nat
  user : Option User
  audioEnabled : Option Bool
  videoEnabled : Option Bool
deriving DecidableEq

/-- JS `x || d` for an optional boolean `x`: a present `true` is kept,
    everything else (`false` or `undefined`) falls through to `d`. -/
def jsOr (x : Option Bool) (d : Bool) : Bool :=
  match x with
  | some true => true
  | _ => d

/-- A participant record as stored by the relay's `participants` map.
    `isScreenSharing` is absent (JS `undefined`, read as false) until the
    first `start-screen-share`. -/
structure Participant where
  socketId : Nat
  userId : Nat
  user : User
  audioEnabled : Bool
  videoEnabled : Bool
  meetingKey : Nat
  isScreenSharing : Bool
deriving DecidableEq

/-- `Map.get` on an insertion-ordered association list. -/
def alGet {α : Type} (l : List (Nat × α)) (k : Nat) : Option α :=
  match l with
  | [] => none
  | (k', v) :: t => if k' = k then some v else alGet t k

/-- `Map.set` on an insertion-ordered association list: update in place,
    or append a fresh entry. -/
def alSet {α : Type} (l : List (Nat × α)) (k : Nat) (v : α) : List (Nat × α) :=
  match l with
  | [] => [(k, v)]
  | (k', v') :: t => if k' = k then (k, v) :: t else (k', v') :: alSet t k v

/-- `Map.delete`. -/
def alDel {α : Type} (l : List (Nat × α)) (k : Nat) : List (Nat × α) :=
  l.filter (fun e => e.1 != k)

/-- `Set.add` (insertion order, no duplicates). -/
def setAdd (l : List Nat) (k : Nat) : List Nat :=
  if k ∈ l then l else l ++ [k]

/-- `Set.delete`. -/
def setDel (l : List Nat) (k : Nat) : List Nat :=
  l.filter (fun x => x != k)

/-- `if (!m.has(k)) m.set(k, new Set()); m.get(k).add(sid)` — both the
    relay's `rooms` map and the Socket.IO adapter's `join` do this. -/
def roomsAdd (m : List (Nat × List Nat)) (k sid : Nat) : List (Nat × List Nat) :=
  match alGet m k with
  | some mem => alSet m k (setAdd mem sid)
  | none => m ++ [(k, [sid])]

/-- Remove `sid` from room `k` and delete the room when it becomes empty —
    the relay's `rooms` cleanup, and the adapter's `leave`. -/
def roomsRemove (m : List (Nat × List Nat)) (k sid : Nat) : List (Nat × List Nat) :=
  match alGet m k with
  | some mem =>
    let mem' := setDel mem sid
    if mem'.isEmpty then alDel m k else alSet m k mem'
  | none => m

/-- The adapter removes a disconnecting socket from every room it is in
    (including its own id-room), dropping rooms that become empty. -/
def adapterRemoveAll (m : List (Nat × List Nat)) (sid : Nat) : List (Nat × List Nat) :=
  m.filterMap (fun e =>
    let mem' := setDel e.2 sid
    if mem'.isEmpty then none else some (e.1, mem'))

/-- Members of a room (empty when the room does not exist). -/
def members (m : List (Nat × List Nat)) (k : Nat) : List Nat :=
  (alGet m k).getD []

/-- Relay state: the Socket.IO adapter's rooms, the application-level
    `rooms` map and the `participants` map. -/
structure ServerState where
  adapter : List (Nat × List Nat)
  rooms : List (Nat × List Nat)
  participants : List (Nat × Participant)
deriving DecidableEq

/-- Events the relay emits to clients. -/
inductive SEvent where
  | roomUsers (ps : List Participant)
  | userJoined (p : Participant)
  | userLeft (sid : Nat)
  | offerEv (payload : Nat) (sender : Nat) (userId : Option Nat)
  | answerEv (payload : Nat) (sender : Nat)
  | iceEv (payload : Nat) (sender : Nat)
  | chatEv (message : Nat) (user : User) (timestamp : Nat)
  | screenStarted (userId : Nat) (sid : Nat)
  | screenStopped (userId : Nat) (sid : Nat)
  | recStarted (user : User)
  | recStopped (user : User)
deriving DecidableEq

/-- `socket.to(room).emit(e)`: every member of the adapter room except the
    sender receives `e`. -/
def socketTo (s : ServerState) (sid room : Nat) (e : SEvent) : List (Nat × SEvent) :=
  ((members s.adapter room).filter (fun r => r != sid)).map (fun r => (r, e))

/-- `io.to(room).emit(e)`: every member of the adapter room receives `e`,
    the sender included when it is a member. -/
def ioBroadcast (s : ServerState) (room : Nat) (e : SEvent) : List (Nat × SEvent) :=
  (members s.adapter room).map (fun r => (r, e))

/-- A new connection: Socket.IO auto-joins the socket to the adapter room
    named by its own id. -/
def connectSock (sid : Nat) (s : ServerState) : ServerState :=
  { s with adapter := roomsAdd s.adapter sid sid }

/-- The participant record built by the `join-room` handler:
    `userId: userInfo.userId || socket.id`,
    `user: userInfo.user || {name: 'Anonymous'}`,
    `audioEnabled: userInfo.audioEnabled || true`,
    `videoEnabled: userInfo.videoEnabled || true`.
    `anonymousName` stands for the literal `'Anonymous'`. -/
def anonymousName : Nat := 0

def mkParticipant (sid meetingKey : Nat) (ui : UserInfo) : Participant :=
  { socketId := sid
    userId := ui.userId.getD sid
    user := ui.user.getD { id := none, name := anonymousName, email := none }
    audioEnabled := jsOr ui.audioEnabled true
    videoEnabled := jsOr ui.videoEnabled true
    meetingKey := meetingKey
    isScreenSharing := false }

/-- The `join-room` handler: `socket.join(meetingKey)`; store the
    participant record; init/extend the room set; reply `room-users` with
    every room member's stored record (`.filter(Boolean)` drops members
    with no record); broadcast `user-joined` (with the record just stored,
    i.e. `participants.get(socket.id)`) to the others. -/
def joinRoom (sid meetingKey : Nat) (ui : UserInfo) (s : ServerState) :
    ServerState × List (Nat × SEvent) :=
  let s1 : ServerState := { s with adapter := roomsAdd s.adapter meetingKey sid }
  let p := mkParticipant sid meetingKey ui
  let s2 : ServerState := { s1 with participants := alSet s1.participants sid p }
  let s3 : ServerState := { s2 with rooms := roomsAdd s2.rooms meetingKey sid }
  let roomParticipants :=
    (members s3.rooms meetingKey).filterMap (fun x => alGet s3.participants x)
  (s3, (sid, SEvent.roomUsers roomParticipants) ::
        socketTo s3 sid meetingKey (SEvent.userJoined p))

/-- The `leave-room` handler: `socket.leave(meetingKey)`; remove from the
    room set (deleting an emptied room); emit `user-left` to the room
    unconditionally; delete the participant record. -/
def leaveRoom (sid meetingKey : Nat) (s : ServerState) :
    ServerState × List (Nat × SEvent) :=
  let s1 : ServerState := { s with adapter := roomsRemove s.adapter meetingKey sid }
  let s2 : ServerState := { s1 with rooms := roomsRemove s1.rooms meetingKey sid }
  let out := socketTo s2 sid meetingKey (SEvent.userLeft sid)
  ({ s2 with participants := alDel s2.participants sid }, out)

/-- The `webrtc-offer` handler: `socket.to(to).emit('webrtc-offer',
    {offer, from: socket.id, userId: participants.get(socket.id)?.userId})`.
    No state change. -/
def webrtcOffer (sid meetingKey payload target : Nat) (s : ServerState) :
    ServerState × List (Nat × SEvent) :=
  (s, socketTo s sid target
        (SEvent.offerEv payload sid ((alGet s.participants sid).map Participant.userId)))

/-- The `webrtc-answer` handler. -/
def webrtcAnswer (sid meetingKey payload target : Nat) (s : ServerState) :
    ServerState × List (Nat × SEvent) :=
  (s, socketTo s sid target (SEvent.answerEv payload sid))

/-- The `webrtc-ice-candidate` handler. -/
def webrtcIce (sid meetingKey payload target : Nat) (s : ServerState) :
    ServerState × List (Nat × SEvent) :=
  (s, socketTo s sid target (SEvent.iceEv payload sid))

/-- The `chat-message` handler: if the sender is registered, broadcast via
    `io.to(meetingKey)` (the sender included) with a server timestamp. -/
def chatMessage (sid meetingKey msg now : Nat) (s : ServerState) :
    ServerState × List (Nat × SEvent) :=
  match alGet s.participants sid with
  | some p => (s, ioBroadcast s meetingKey (SEvent.chatEv msg p.user now))
  | none => (s, [])

/-- The `start-screen-share` handler: mark the sender's record and notify
    the others via `socket.to(meetingKey)`. -/
def startScreenShareSrv (sid meetingKey : Nat) (s : ServerState) :
    ServerState × List (Nat × SEvent) :=
  match alGet s.participants sid with
  | some p =>
    ({ s with participants := alSet s.participants sid { p with isScreenSharing := true } },
     socketTo s sid meetingKey (SEvent.screenStarted p.userId sid))
  | none => (s, [])

/-- The `stop-screen-share` handler. -/
def stopScreenShareSrv (sid meetingKey : Nat) (s : ServerState) :
    ServerState × List (Nat × SEvent) :=
  match alGet s.participants sid with
  | some p =>
    ({ s with participants := alSet s.participants sid { p with isScreenSharing := false } },
     socketTo s sid meetingKey (SEvent.screenStopped p.userId sid))
  | none => (s, [])

/-- The `start-recording` handler: `io.to(meetingKey)` (sender included). -/
def startRecordingSrv (sid meetingKey : Nat) (s : ServerState) :
    ServerState × List (Nat × SEvent) :=
  match alGet s.participants sid with
  | some p => (s, ioBroadcast s meetingKey (SEvent.recStarted p.user))
  | none => (s, [])

/-- The `stop-recording` handler. -/
def stopRecordingSrv (sid meetingKey : Nat) (s : ServerState) :
    ServerState × List (Nat × SEvent) :=
  match alGet s.participants sid with
  | some p => (s, ioBroadcast s meetingKey (SEvent.recStopped p.user))
  | none => (s, [])

/-- The `disconnect` handler.  Socket.IO has already removed the socket
    from every adapter room when `disconnect` fires; the handler then
    cleans the room set of the participant's recorded meeting and emits
    `user-left` to that room, but only when a participant record exists. -/
def disconnectSrv (sid : Nat) (s : ServerState) :
    ServerState × List (Nat × SEvent) :=
  let s1 : ServerState := { s with adapter := adapterRemoveAll s.adapter sid }
  match alGet s1.participants sid with
  | some p =>
    let s2 : ServerState := { s1 with rooms := roomsRemove s1.rooms p.meetingKey sid }
    let out := socketTo s2 sid p.meetingKey (SEvent.userLeft sid)
    ({ s2 with participants := alDel s2.participants sid }, out)
  | none => ({ s1 with participants := alDel s1.participants sid }, [])

/-
  Client-side model.  `src/unnamed/part_001` holds two versions of the
  MeetingRoom component; their differing handlers are modeled with a V1 /
  V2 suffix.  Media tracks and session descriptions are opaque data, ICE
  candidates are numbered by arrival.
-/

inductive TrackKind where
  | audio
  | video
deriving DecidableEq

structure Track where
  kind : TrackKind
  trackId : Nat
deriving DecidableEq

/-- A committed session description (only its offer/answer role matters to
    the control flow being modeled). -/
inductive SDesc where
  | offerDesc
  | answerDesc
deriving DecidableEq

inductive ConnState where
  | stateNew
  | stateConnected
  | stateFailed
deriving DecidableEq

/-- One `RTCPeerConnection` as the client drives it.  `pcId` numbers the
    `new RTCPeerConnection()` allocations so distinct handles stay
    distinguishable; `senders` is the track list built by `addTrack`;
    `applied` lists the ICE candidates passed to `addIceCandidate`, in
    order. -/
structure PC where
  pcId : Nat
  senders : List Track
  localDesc : Option SDesc
  remoteDesc : Option SDesc
  applied : List Nat
  closed : Bool
  connState : ConnState
deriving DecidableEq

/-- Messages the client emits through the socket service. -/
inductive OutMsg where
  | offerMsg (target : Nat)
  | answerMsg (target : Nat)
  | iceMsg (target : Nat) (cand : Nat)
  | leaveMsg (meetingKey : Nat)
  | startShareMsg (meetingKey : Nat)
  | stopShareMsg (meetingKey : Nat)
  | disconnectMsg
deriving DecidableEq

/-- The client-side view of a participant (the fields the negotiation
    logic reads). -/
structure CParticipant where
  userId : Nat
  socketId : Nat
deriving DecidableEq

/-- Local state of one MeetingRoom client. -/
structure ClientState where
  selfUserId : Nat
  meetingKey : Nat
  parts : List (Nat × CParticipant)
  pcs : List (Nat × PC)
  nextPcId : Nat
  localTracks : List Track
  localTracksStopped : Bool
  isScreenSharing : Bool
  screenEndHandlerSet : Bool
  sent : List OutMsg
  connected : Bool
deriving DecidableEq

/-- `new RTCPeerConnection(rtcConfiguration)` followed by
    `localStream.getTracks().forEach(t => pc.addTrack(t, localStream))`. -/
def newPC (st : ClientState) : PC × ClientState :=
  ({ pcId := st.nextPcId
     senders := st.localTracks
     localDesc := none
     remoteDesc := none
     applied := []
     closed := false
     connState := ConnState.stateNew },
   { st with nextPcId := st.nextPcId + 1 })

/-- `createPeerConnection` of the first MeetingRoom version: if a
    connection for `sid` already exists it is returned unchanged;
    otherwise a fresh one is stored and, when `isInitiator`, an offer is
    created, committed locally and sent to `sid`. -/
def createPeerConnectionV1 (sid : Nat) (isInitiator : Bool) (st : ClientState) :
    Option PC × ClientState :=
  match alGet st.pcs sid with
  | some pc => (some pc, st)
  | none =>
    let (pc, st1) := newPC st
    let st2 := { st1 with pcs := alSet st1.pcs sid pc }
    if isInitiator then
      let pc' := { pc with localDesc := some SDesc.offerDesc }
      (some pc',
       { st2 with pcs := alSet st2.pcs sid pc'
                  sent := st2.sent ++ [OutMsg.offerMsg sid] })
    else (some pc, st2)

/-- `createPeerConnection` of the second MeetingRoom version: no
    existence check — a fresh connection is always allocated and stored,
    replacing any existing map entry for `sid`. -/
def createPeerConnectionV2 (sid : Nat) (isInitiator : Bool) (st : ClientState) :
    PC × ClientState :=
  let (pc, st1) := newPC st
  let st2 := { st1 with pcs := alSet st1.pcs sid pc }
  if isInitiator then
    let pc' := { pc with localDesc := some SDesc.offerDesc }
    (pc',
     { st2 with pcs := alSet st2.pcs sid pc'
                sent := st2.sent ++ [OutMsg.offerMsg sid] })
  else (pc, st2)

/-- The `room-users` listener (first version): rebuild the participants
    map from the snapshot and create an initiator-role connection toward
    every listed participant other than oneself. -/
def onRoomUsersV1 (users : List CParticipant) (st : ClientState) : ClientState :=
  users.foldl (fun acc u =>
    if u.userId != acc.selfUserId then
      let acc1 := { acc with parts := alSet acc.parts u.socketId u }
      (createPeerConnectionV1 u.socketId true acc1).2
    else acc) { st with parts := [] }

/-- The `user-joined` listener (first version): record the participant and
    create a connection with `isInitiator = false` — no offer is sent; the
    new joiner is expected to initiate. -/
def onUserJoinedV1 (p : CParticipant) (st : ClientState) : ClientState :=
  if p.userId != st.selfUserId then
    let st1 := { st with parts := alSet st.parts p.socketId p }
    (createPeerConnectionV1 p.socketId false st1).2
  else st

/-- The `user-joined` listener (second version): record the participant
    and create a connection with `isInitiator = true` — an offer is sent
    toward the newly-joined peer. -/
def onUserJoinedV2 (p : CParticipant) (st : ClientState) : ClientState :=
  if p.userId != st.selfUserId then
    let st1 := { st with parts := alSet st.parts p.socketId p }
    (createPeerConnectionV2 p.socketId true st1).2
  else st

/-- `handleOffer` (first version): reuse or create the connection for the
    offerer, commit the remote offer, build and commit a local answer and
    send it back. -/
def handleOfferV1 (sender : Nat) (st : ClientState) : ClientState :=
  let r :=
    match alGet st.pcs sender with
    | some pc => (some pc, st)
    | none => createPeerConnectionV1 sender false st
  match r.1 with
  | some pc =>
    let pc' := { pc with remoteDesc := some SDesc.offerDesc
                         localDesc := some SDesc.answerDesc }
    { r.2 with pcs := alSet r.2.pcs sender pc'
               sent := r.2.sent ++ [OutMsg.answerMsg sender] }
  | none => r.2

/-- `handleAnswer` (both versions): commit the remote answer when the
    connection exists. -/
def handleAnswerV1 (sender : Nat) (st : ClientState) : ClientState :=
  match alGet st.pcs sender with
  | some pc =>
    { st with pcs := alSet st.pcs sender { pc with remoteDesc := some SDesc.answerDesc } }
  | none => st

/-- `handleIceCandidate` (second version): `addIceCandidate` right away;
    with no remote description committed the call rejects, the error is
    caught and logged, and the candidate is dropped. -/
def handleIceCandidateV2 (sender cand : Nat) (st : ClientState) : ClientState :=
  match alGet st.pcs sender with
  | some pc =>
    match pc.remoteDesc with
    | some _ =>
      { st with pcs := alSet st.pcs sender { pc with applied := pc.applied ++ [cand] } }
    | none => st
  | none => st

/-
  `handleIceCandidate` of the first version retries through
  `setTimeout(() => handleIceCandidate(candidate, from), 1000)` whenever
  `pc.remoteDescription` is not yet set.  Its timing behaviour is modeled
  as a discrete-event loop: a pending invocation (fire time, candidate) is
  executed in fire-time order (FIFO among equal times, as in the JS timer
  queue); at fire time `t` the candidate is applied when the remote
  description was committed at some `rdTime ≤ t`, and otherwise re-queued
  at `t + 1000`.
-/

/-- Pick the earliest pending invocation (first among ties). -/
def pickMin : List (Nat × Nat) → Option ((Nat × Nat) × List (Nat × Nat))
  | [] => none
  | e :: rest =>
    match pickMin rest with
    | none => some (e, [])
    | some (m, rest') => if e.1 ≤ m.1 then some (e, rest) else some (m, e :: rest')

/-- Run the retry loop; returns the candidates in application order. -/
def iceRetryLoop (fuel : Nat) (rdTime : Nat) (pending : List (Nat × Nat))
    (applied : List Nat) : List Nat :=
  match fuel with
  | 0 => applied
  | fuel' + 1 =>
    match pickMin pending with
    | none => applied
    | some ((t, c), rest) =>
      if rdTime ≤ t then iceRetryLoop fuel' rdTime rest (applied ++ [c])
      else iceRetryLoop fuel' rdTime (rest ++ [(t + 1000, c)]) applied

/-- First-version ICE handling of a batch of candidate arrivals
    `(arrival time, candidate)` against a remote description committed at
    `rdTime`. -/
def iceRetrySim (arrivals : List (Nat × Nat)) (rdTime fuel : Nat) : List Nat :=
  iceRetryLoop fuel rdTime arrivals []

/-- `getSenders().find(s => s.track && s.track.kind === 'video')` followed
    by `sender.replaceTrack(videoTrack)`: substitute the first video
    sender's track, leaving every other sender alone. -/
def replaceVideoSender (senders : List Track) (t : Track) : List Track :=
  match senders with
  | [] => []
  | s :: rest =>
    if s.kind = TrackKind.video then t :: rest else s :: replaceVideoSender rest t

def replacePCVideo (pc : PC) (t : Track) : PC :=
  { pc with senders := replaceVideoSender pc.senders t }

/-- The sender `find` itself (used to state which track got substituted). -/
def firstVideo : List Track → Option Track
  | [] => none
  | s :: rest => if s.kind = TrackKind.video then some s else firstVideo rest

/-- The screen-share start half of `toggleScreenShare`: replace the video
    track on every stored peer connection, flip the local flag, broadcast
    the hint, and install `videoTrack.onended = () => stopScreenShare()`. -/
def startScreenShareClient (screenTrack : Track) (st : ClientState) : ClientState :=
  { st with pcs := st.pcs.map (fun e => (e.1, replacePCVideo e.2 screenTrack))
            isScreenSharing := true
            screenEndHandlerSet := true
            sent := st.sent ++ [OutMsg.startShareMsg st.meetingKey] }

/-- `stopScreenShare`: re-acquire the camera (its tracks become the local
    stream), swap its video track back into every stored peer connection,
    flip the flag, broadcast the hint. -/
def stopScreenShareClient (cameraTrack : Track) (cameraTracks : List Track)
    (st : ClientState) : ClientState :=
  { st with pcs := st.pcs.map (fun e => (e.1, replacePCVideo e.2 cameraTrack))
            localTracks := cameraTracks
            isScreenSharing := false
            sent := st.sent ++ [OutMsg.stopShareMsg st.meetingKey] }

/-- Fault injection for `cleanup`: which of its first three steps throws
    (the fourth, `disconnect`, is last). -/
structure Throws where
  stopThrows : Bool
  closeThrows : Bool
  leaveThrows : Bool
deriving DecidableEq

/-- Which of the four teardown steps ran to completion. -/
structure CleanupTrace where
  stoppedTracks : Bool
  closedPCs : Bool
  leftRoom : Bool
  disconnected : Bool
deriving DecidableEq

/-- `cleanup` (both versions): stop local tracks, close and clear every
    peer connection, emit the leave intent, disconnect.  The body has no
    try/catch, so an exception in a step propagates and the remaining
    steps never run. -/
def cleanupV1 (th : Throws) (st : ClientState) : ClientState × CleanupTrace :=
  if th.stopThrows then
    (st, { stoppedTracks := false, closedPCs := false, leftRoom := false, disconnected := false })
  else
    let st1 := { st with localTracksStopped := true }
    if th.closeThrows then
      (st1, { stoppedTracks := true, closedPCs := false, leftRoom := false, disconnected := false })
    else
      let st2 := { st1 with pcs := [] }
      if th.leaveThrows then
        (st2, { stoppedTracks := true, closedPCs := true, leftRoom := false, disconnected := false })
      else
        let st3 := { st2 with sent := st2.sent ++ [OutMsg.leaveMsg st2.meetingKey] }
        ({ st3 with sent := st3.sent ++ [OutMsg.disconnectMsg], connected := false },
         { stoppedTracks := true, closedPCs := true, leftRoom := true, disconnected := true })

/-
  Concrete fixtures: sockets 101, 102, 103 in meeting 500;
  user ids 11, 12; `sA` / `sAB` are relay states reached by the
  corresponding connect + join sequences.
-/

def uA : User := { id := some 11, name := 1, email := some 21 }

def uB : User := { id := some 12, name := 2, email := some 22 }

def uiA : UserInfo :=
  { userId := some 11, user := some uA, audioEnabled := some true, videoEnabled := some true }

def uiB : UserInfo :=
  { userId := some 12, user := some uB, audioEnabled := some true, videoEnabled := some true }

/-- A joiner that explicitly reports both media flags as `false`. -/
def uiFalseFlags : UserInfo :=
  { userId := some 13, user := some uB, audioEnabled := some false, videoEnabled := some false }

def s0 : ServerState := { adapter := [], rooms := [], participants := [] }

def sA : ServerState := (joinRoom 101 500 uiA (connectSock 101 s0)).1

def sAB : ServerState := (joinRoom 102 500 uiB (connectSock 102 sA)).1

def sABC : ServerState := connectSock 103 sAB

def sABafterLeave : ServerState := (leaveRoom 101 500 sAB).1

def camAudio : Track := { kind := TrackKind.audio, trackId := 0 }

def camVideo : Track := { kind := TrackKind.video, trackId := 1 }

def screenVideo : Track := { kind := TrackKind.video, trackId := 2 }

def cpB : CParticipant := { userId := 12, socketId := 102 }

def stEmpty : ClientState :=
  { selfUserId := 11, meetingKey := 500, parts := [], pcs := [], nextPcId := 0,
    localTracks := [camAudio, camVideo], localTracksStopped := false,
    isScreenSharing := false, screenEndHandlerSet := false, sent := [], connected := true }

def pcFresh : PC :=
  { pcId := 0, senders := [], localDesc := none, remoteDesc := none,
    applied := [], closed := false, connState := ConnState.stateNew }

def stOnePc : ClientState := { stEmpty with pcs := [(102, pcFresh)], nextPcId := 1 }

def pcCam : PC :=
  { pcId := 0, senders := [camAudio, camVideo], localDesc := some SDesc.offerDesc,
    remoteDesc := some SDesc.answerDesc, applied := [], closed := false,
    connState := ConnState.stateConnected }

def stCam : ClientState := { stEmpty with pcs := [(102, pcCam)], nextPcId := 1 }

/-- `pcCam` after the screen track has been swapped in. -/
def pcScr : PC := { pcCam with senders := [camAudio, screenVideo] }

/-- `pcScr` after the camera track has been swapped back. -/
def pcBack : PC := { pcCam with senders := [camAudio, camVideo] }

/-- `stCam` while screen-sharing. -/
def stShared : ClientState := startScreenShareClient screenVideo stCam

/- Association-list and counting lemmas. -/

theorem alGet_alSet_self {α : Type} (l : List (Nat × α)) (k : Nat) (v : α) :
    alGet (alSet l k v) k = some v := by
  induction l with
  | nil => simp [alSet, alGet]
  | cons e t ih =>
    obtain ⟨k', v'⟩ := e
    by_cases h : k' = k
    · simp [alSet, alGet, h]
    · simp [alSet, alGet, h, ih]

theorem alGet_alSet_ne {α : Type} (l : List (Nat × α)) (k k' : Nat) (v : α)
    (h : k' ≠ k) : alGet (alSet l k v) k' = alGet l k' := by
  induction l with
  | nil => simp [alSet, alGet, Ne.symm h]
  | cons e t ih =>
    obtain ⟨k'', v''⟩ := e
    by_cases hk : k'' = k
    · simp [alSet, alGet, hk, Ne.symm h]
    · simp [alSet, alGet, hk, ih]

theorem alGet_alDel_self {α : Type} (l : List (Nat × α)) (k : Nat) :
    alGet (alDel l k) k = none := by
  induction l with
  | nil => simp [alDel, alGet]
  | cons e t ih =>
    obtain ⟨k', v'⟩ := e
    have ih' : alGet (List.filter (fun e => e.1 != k) t) k = none := by
      simpa [alDel] using ih
    by_cases h : k' = k
    · simpa [alDel, alGet, h] using ih'
    · simp [alDel, alGet, h, ih']

theorem alGet_append_of_none {α : Type} (l₁ l₂ : List (Nat × α)) (k : Nat)
    (h : alGet l₁ k = none) : alGet (l₁ ++ l₂) k = alGet l₂ k := by
  induction l₁ with
  | nil => simp
  | cons e t ih =>
    obtain ⟨k', v'⟩ := e
    by_cases hk : k' = k
    · simp [alGet, hk] at h
    · rw [List.cons_append]
      simp only [alGet, hk, if_false] at h
      simp only [alGet, hk, if_false]
      exact ih h

theorem alGet_map_values {α β : Type} (l : List (Nat × α)) (f : α → β) (k : Nat) :
    alGet (l.map (fun e => (e.1, f e.2))) k = (alGet l k).map f := by
  induction l with
  | nil => rfl
  | cons e t ih =>
    obtain ⟨k', v⟩ := e
    by_cases h : k' = k <;> simp [alGet, h, ih]

theorem alGet_map_replace (l : List (Nat × PC)) (t : Track) (k : Nat) :
    alGet (l.map (fun e => (e.1, replacePCVideo e.2 t))) k
      = (alGet l k).map (fun pc => replacePCVideo pc t) := by
  induction l with
  | nil => rfl
  | cons e tl ih =>
    obtain ⟨k', v⟩ := e
    by_cases h : k' = k <;> simp [alGet, h, ih]

theorem members_roomsAdd {m : List (Nat × List Nat)} {k sid : Nat}
    (h : sid ∉ members m k) :
    members (roomsAdd m k sid) k = members m k ++ [sid] := by
  unfold members roomsAdd
  cases hm : alGet m k with
  | none =>
    rw [alGet_append_of_none m [(k, [sid])] k hm]
    simp [alGet, hm]
  | some mem =>
    have hsid : sid ∉ mem := by simpa [members, hm] using h
    simp [hm, alGet_alSet_self, setAdd, hsid]

theorem members_roomsAdd_mem {m : List (Nat × List Nat)} {k sid r : Nat}
    (h : r ∈ members m k) : r ∈ members (roomsAdd m k sid) k := by
  unfold members at h
  cases hm : alGet m k with
  | none => rw [hm] at h; simp at h
  | some mem =>
    rw [hm] at h
    simp only [Option.getD_some] at h
    unfold members roomsAdd
    rw [hm, alGet_alSet_self]
    simp only [Option.getD_some, setAdd]
    by_cases hs : sid ∈ mem
    · simp [hs, h]
    · simp [hs, h]

theorem count_pair_map (mem : List Nat) (e : SEvent) (r : Nat) :
    ((mem.map (fun x => (x, e))).count (r, e)) = mem.count r := by
  induction mem with
  | nil => simp
  | cons a t ih =>
    simp [List.count_cons, ih, Prod.ext_iff]

theorem count_filter_ne (mem : List Nat) (sid r : Nat) (h : r ≠ sid) :
    ((mem.filter (fun x => x != sid)).count r) = mem.count r := by
  induction mem with
  | nil => simp
  | cons a t ih =>
    by_cases ha : a = sid
    · simp [List.filter_cons, ha, List.count_cons, Ne.symm h, ih]
    · simp [List.filter_cons, ha, List.count_cons, ih]

theorem jsOr_true (x : Option Bool) : jsOr x true = true := by
  rcases x with _ | b
  · rfl
  · cases b <;> rfl

theorem replaceVideoSender_kinds (senders : List Track) (t : Track)
    (ht : t.kind = TrackKind.video) :
    (replaceVideoSender senders t).map Track.kind = senders.map Track.kind := by
  induction senders with
  | nil => rfl
  | cons s rest ih =>
    by_cases h : s.kind = TrackKind.video
    · simp [replaceVideoSender, h, ht]
    · simp [replaceVideoSender, h, ih]

theorem firstVideo_replace (senders : List Track) (t : Track)
    (h : (firstVideo senders).isSome) (ht : t.kind = TrackKind.video) :
    firstVideo (replaceVideoSender senders t) = some t := by
  induction senders with
  | nil => simp [firstVideo] at h
  | cons s rest ih =>
    by_cases hs : s.kind = TrackKind.video
    · simp [replaceVideoSender, firstVideo, hs, ht]
    · simp only [firstVideo, hs, if_false] at h
      simp [replaceVideoSender, firstVideo, hs, ih h]

/-- C1 (counterexample): when 102 joins room 500 where 101 already sits,
    the `room-users` reply sent to 102 is the full post-join member list —
    it contains the joiner's own record (socketId 102), not just the
    pre-existing participant, refuting "excluding the joiner itself". -/
theorem C1_reply_contains_joiner :
    (joinRoom 102 500 uiB (connectSock 102 sA)).2.head? =
      some (102, SEvent.roomUsers
        [mkParticipant 101 500 uiA, mkParticipant 102 500 uiB]) := by
  decide

/-- C1 (amended): for a socket not yet in room `m`, the `room-users` reply
    of `join-room` lists exactly the records of the members that were in
    the room before the join and still have a registry entry, in room
    order, followed by the joiner's own freshly stored record. -/
theorem C1_join_snapshot (s : ServerState) (sid m : Nat) (ui : UserInfo)
    (hmem : sid ∉ members s.rooms m) :
    (joinRoom sid m ui s).2.head? =
      some (sid, SEvent.roomUsers
        (((members s.rooms m).filterMap (fun x => alGet s.participants x))
          ++ [mkParticipant sid m ui])) := by
  have hadd : members (roomsAdd s.rooms m sid) m = members s.rooms m ++ [sid] :=
    members_roomsAdd hmem
  have hcongr :
      (members s.rooms m).filterMap
          (fun x => alGet (alSet s.participants sid (mkParticipant sid m ui)) x)
        = (members s.rooms m).filterMap (fun x => alGet s.participants x) :=
    List.filterMap_congr (fun x hx =>
      alGet_alSet_ne s.participants sid x (mkParticipant sid m ui)
        (fun hxe => hmem (hxe ▸ hx)))
  simp [joinRoom, hadd, List.filterMap_append, hcongr, alGet_alSet_self,
    List.filterMap_cons]

/-- C1 witness: instantiating the amended join-snapshot theorem with
    socket 102 joining room 500 of state `sA`. -/
theorem C1_join_snapshot_witness :
    (joinRoom 102 500 uiB sA).2.head? =
      some (102, SEvent.roomUsers
        (((members sA.rooms 500).filterMap (fun x => alGet sA.participants x))
          ++ [mkParticipant 102 500 uiB])) :=
  C1_join_snapshot sA 102 500 uiB (by decide)

/-- C2 (counterexample): after 101 has already left room 500, a second
    `leave-room` from 101 still emits `user-left 101` to the remaining
    member 102 — the second leave is not a silent no-op. -/
theorem C2_second_leave_emits :
    (leaveRoom 101 500 sABafterLeave).2 = [(102, SEvent.userLeft 101)] := by
  decide

/-- C2 (amended): each single `leave-room` invocation makes every other
    member of the adapter room observe `user-left` exactly once; the
    registry entry is removed, so a disconnect following an explicit leave
    emits nothing; but the `user-left` emission itself is unconditional,
    so it repeats on a repeated leave (see the counterexample). -/
theorem C2_leave_emission :
    (∀ (s : ServerState) (sid m r : Nat),
        (members s.adapter m).Nodup → r ∈ members s.adapter m → r ≠ sid →
        ((leaveRoom sid m s).2.count (r, SEvent.userLeft sid) = 1))
    ∧ (∀ (s : ServerState) (sid m : Nat),
        alGet (leaveRoom sid m s).1.participants sid = none)
    ∧ (∀ (s : ServerState) (sid : Nat),
        alGet s.participants sid = none → (disconnectSrv sid s).2 = []) := by
  refine ⟨?_, ?_, ?_⟩
  · intro s sid m r hnd hr hne
    cases hm : alGet s.adapter m with
    | none => simp [members, hm] at hr
    | some mem =>
      have hmem : members s.adapter m = mem := by simp [members, hm]
      rw [hmem] at hnd hr
      have hrmem' : r ∈ setDel mem sid := by
        simp [setDel, List.mem_filter, hr, hne]
      have hnotempty : ((setDel mem sid).isEmpty) = false := by
        cases hsd : setDel mem sid with
        | nil => rw [hsd] at hrmem'; cases hrmem'
        | cons a t => simp
      have hmembers2 : members (roomsRemove s.adapter m sid) m = setDel mem sid := by
        simp [roomsRemove, hm, hnotempty, members, alGet_alSet_self]
      simp only [leaveRoom, socketTo]
      rw [hmembers2, count_pair_map, count_filter_ne _ _ _ hne]
      unfold setDel
      rw [count_filter_ne _ _ _ hne]
      exact List.count_eq_one_of_mem hnd hr
  · intro s sid m
    simp [leaveRoom, alGet_alDel_self]
  · intro s sid h
    simp [disconnectSrv, h]

/-- C2 witness: in state `sAB`, 101 leaving room 500 delivers exactly one
    `user-left 101` to 102, and a disconnect of 101 right after their
    explicit leave emits nothing. -/
theorem C2_leave_emission_witness :
    ((leaveRoom 101 500 sAB).2.count (102, SEvent.userLeft 101) = 1)
    ∧ (disconnectSrv 101 (leaveRoom 101 500 sAB).1).2 = [] :=
  ⟨C2_leave_emission.1 sAB 101 500 102 (by decide) (by decide) (by decide),
   C2_leave_emission.2.2 (leaveRoom 101 500 sAB).1 101
     (C2_leave_emission.2.1 sAB 101 500)⟩

/-- C3 (counterexample): in `sABC`, socket 103 addresses an offer to
    target 500 — the meeting key, which is not a connection known to the
    relay (no registry entry) — yet `socket.to(500)` delivers the message
    to connections 101 and 102: an unroutable-as-a-connection target is
    not always delivered to no one. -/
theorem C3_room_key_misdelivery :
    alGet sABC.participants 500 = none
    ∧ (webrtcOffer 103 500 7 500 sABC).2 =
        [(101, SEvent.offerEv 7 103 none), (102, SEvent.offerEv 7 103 none)] := by
  decide

/-- C3 (amended): a directed signal message whose target matches no
    Socket.IO adapter room (neither a connection id nor an active meeting
    key) is delivered to no connection and leaves the relay state
    completely unchanged — nothing is counted and no error reaches the
    sender. -/
theorem C3_unroutable_dropped (s : ServerState) (sid m payload target : Nat)
    (h : alGet s.adapter target = none) :
    (webrtcOffer sid m payload target s).2 = []
    ∧ (webrtcOffer sid m payload target s).1 = s
    ∧ (webrtcAnswer sid m payload target s).2 = []
    ∧ (webrtcAnswer sid m payload target s).1 = s
    ∧ (webrtcIce sid m payload target s).2 = []
    ∧ (webrtcIce sid m payload target s).1 = s := by
  simp [webrtcOffer, webrtcAnswer, webrtcIce, socketTo, members, h]

/-- C3 witness: target 999 matches no adapter room of `sAB`; all three
    directed handlers deliver nothing and change nothing. -/
theorem C3_unroutable_dropped_witness :
    (webrtcOffer 101 500 7 999 sAB).2 = []
    ∧ (webrtcOffer 101 500 7 999 sAB).1 = sAB
    ∧ (webrtcAnswer 101 500 7 999 sAB).2 = []
    ∧ (webrtcAnswer 101 500 7 999 sAB).1 = sAB
    ∧ (webrtcIce 101 500 7 999 sAB).2 = []
    ∧ (webrtcIce 101 500 7 999 sAB).1 = sAB :=
  C3_unroutable_dropped sAB 101 500 7 999 (by decide)

/-- C4 (counterexample): 101's chat message in room 500 is delivered via
    `io.to` to the whole room — including 101 itself — refuting "not back
    to the sender itself". -/
theorem C4_chat_echoes_sender :
    (chatMessage 101 500 9 42 sAB).2 =
      [(101, SEvent.chatEv 9 uA 42), (102, SEvent.chatEv 9 uA 42)] := by
  decide

/-- C4 (amended): broadcast routing splits by handler: `chat-message` and
    recording start/stop use `io.to` and reach every room member, the
    sender included when it is in the room; screen-share start/stop,
    `user-left` and `user-joined` use `socket.to` and reach every room
    member except the sender — each of those is delivered to every other
    member and never to the sender itself. -/
theorem C4_broadcast_delivery :
    (∀ (s : ServerState) (sid m msg now : Nat) (p : Participant) (r : Nat),
        alGet s.participants sid = some p → r ∈ members s.adapter m →
        (r, SEvent.chatEv msg p.user now) ∈ (chatMessage sid m msg now s).2)
    ∧ (∀ (s : ServerState) (sid m : Nat) (p : Participant) (r : Nat),
        alGet s.participants sid = some p → r ∈ members s.adapter m →
        (r, SEvent.recStarted p.user) ∈ (startRecordingSrv sid m s).2)
    ∧ (∀ (s : ServerState) (sid m : Nat) (d : Nat × SEvent),
        d ∈ (startScreenShareSrv sid m s).2 → d.1 ≠ sid)
    ∧ (∀ (s : ServerState) (sid m : Nat) (p : Participant) (r : Nat),
        alGet s.participants sid = some p → r ∈ members s.adapter m → r ≠ sid →
        (r, SEvent.screenStarted p.userId sid) ∈ (startScreenShareSrv sid m s).2)
    ∧ (∀ (s : ServerState) (sid m : Nat) (d : Nat × SEvent),
        d ∈ (leaveRoom sid m s).2 → d.1 ≠ sid)
    ∧ (∀ (s : ServerState) (sid m : Nat) (ui : UserInfo) (d : Nat × SEvent),
        d ∈ (joinRoom sid m ui s).2.drop 1 → d.1 ≠ sid)
    ∧ (∀ (s : ServerState) (sid m : Nat) (p : Participant) (r : Nat),
        alGet s.participants sid = some p → r ∈ members s.adapter m →
        (r, SEvent.recStopped p.user) ∈ (stopRecordingSrv sid m s).2)
    ∧ (∀ (s : ServerState) (sid m : Nat) (d : Nat × SEvent),
        d ∈ (stopScreenShareSrv sid m s).2 → d.1 ≠ sid)
    ∧ (∀ (s : ServerState) (sid m : Nat) (p : Participant) (r : Nat),
        alGet s.participants sid = some p → r ∈ members s.adapter m → r ≠ sid →
        (r, SEvent.screenStopped p.userId sid) ∈ (stopScreenShareSrv sid m s).2)
    ∧ (∀ (s : ServerState) (sid m : Nat) (ui : UserInfo) (r : Nat),
        r ∈ members s.adapter m → r ≠ sid →
        (r, SEvent.userJoined (mkParticipant sid m ui)) ∈ (joinRoom sid m ui s).2.drop 1)
    ∧ (∀ (s : ServerState) (sid m r : Nat),
        r ∈ members s.adapter m → r ≠ sid →
        (r, SEvent.userLeft sid) ∈ (leaveRoom sid m s).2) := by
  refine ⟨?_, ?_, ?_, ?_, ?_, ?_, ?_, ?_, ?_, ?_, ?_⟩
  · intro s sid m msg now p r hp hr
    simp only [chatMessage, hp, ioBroadcast]
    exact List.mem_map_of_mem _ hr
  · intro s sid m p r hp hr
    simp only [startRecordingSrv, hp, ioBroadcast]
    exact List.mem_map_of_mem _ hr
  · intro s sid m d hd
    cases hp : alGet s.participants sid with
    | none => simp [startScreenShareSrv, hp] at hd
    | some p =>
      simp only [startScreenShareSrv, hp, socketTo, List.mem_map,
        List.mem_filter] at hd
      obtain ⟨x, ⟨_, hx⟩, hdx⟩ := hd
      subst hdx
      simpa using hx
  · intro s sid m p r hp hr hne
    simp only [startScreenShareSrv, hp, socketTo, List.mem_map]
    refine ⟨r, ?_, rfl⟩
    simp [List.mem_filter, hr, hne]
  · intro s sid m d hd
    simp only [leaveRoom, socketTo, List.mem_map, List.mem_filter] at hd
    obtain ⟨x, ⟨_, hx⟩, hdx⟩ := hd
    subst hdx
    simpa using hx
  · intro s sid m ui d hd
    simp only [joinRoom, socketTo, List.drop_succ_cons, List.drop_zero,
      List.mem_map, List.mem_filter] at hd
    obtain ⟨x, ⟨_, hx⟩, hdx⟩ := hd
    subst hdx
    simpa using hx
  · intro s sid m p r hp hr
    simp only [stopRecordingSrv, hp, ioBroadcast]
    exact List.mem_map_of_mem _ hr
  · intro s sid m d hd
    cases hp : alGet s.participants sid with
    | none => simp [stopScreenShareSrv, hp] at hd
    | some p =>
      simp only [stopScreenShareSrv, hp, socketTo, List.mem_map,
        List.mem_filter] at hd
      obtain ⟨x, ⟨_, hx⟩, hdx⟩ := hd
      subst hdx
      simpa using hx
  · intro s sid m p r hp hr hne
    simp only [stopScreenShareSrv, hp, socketTo, List.mem_map]
    refine ⟨r, ?_, rfl⟩
    simp [List.mem_filter, hr, hne]
  · intro s sid m ui r hr hne
    simp only [joinRoom, socketTo, List.drop_succ_cons, List.drop_zero,
      List.mem_map]
    refine ⟨r, ?_, rfl⟩
    rw [List.mem_filter]
    exact ⟨members_roomsAdd_mem hr, by simpa using hne⟩
  · intro s sid m r hr hne
    cases hm : alGet s.adapter m with
    | none => simp [members, hm] at hr
    | some mem =>
      have hmem : members s.adapter m = mem := by simp [members, hm]
      rw [hmem] at hr
      have hrmem' : r ∈ setDel mem sid := by
        simp [setDel, List.mem_filter, hr, hne]
      have hnotempty : ((setDel mem sid).isEmpty) = false := by
        cases hsd : setDel mem sid with
        | nil => rw [hsd] at hrmem'; cases hrmem'
        | cons a t => simp
      have hmembers2 : members (roomsRemove s.adapter m sid) m = setDel mem sid := by
        simp [roomsRemove, hm, hnotempty, members, alGet_alSet_self]
      simp only [leaveRoom, socketTo, List.mem_map]
      refine ⟨r, ?_, rfl⟩
      rw [hmembers2, List.mem_filter]
      exact ⟨hrmem', by simpa using hne⟩

/-- C4 witness: in `sAB`, sender 101's own chat comes back to 101, while
    its screen-share notification reaches 102 and never 101, and 102
    observes 101's `user-left`. -/
theorem C4_broadcast_delivery_witness :
    ((101, SEvent.chatEv 9 (mkParticipant 101 500 uiA).user 42)
        ∈ (chatMessage 101 500 9 42 sAB).2)
    ∧ ((102, SEvent.screenStarted (mkParticipant 101 500 uiA).userId 101)
        ∈ (startScreenShareSrv 101 500 sAB).2)
    ∧ ((102, SEvent.screenStopped (mkParticipant 101 500 uiA).userId 101)
        ∈ (stopScreenShareSrv 101 500 sAB).2)
    ∧ ((102, SEvent.userLeft 101) ∈ (leaveRoom 101 500 sAB).2) :=
  ⟨C4_broadcast_delivery.1 sAB 101 500 9 42 (mkParticipant 101 500 uiA) 101
      (by decide) (by decide),
   C4_broadcast_delivery.2.2.2.1 sAB 101 500 (mkParticipant 101 500 uiA) 102
      (by decide) (by decide) (by decide),
   C4_broadcast_delivery.2.2.2.2.2.2.2.2.1 sAB 101 500 (mkParticipant 101 500 uiA) 102
      (by decide) (by decide) (by decide),
   C4_broadcast_delivery.2.2.2.2.2.2.2.2.2.2 sAB 101 500 102
      (by decide) (by decide)⟩

/-- C10: regardless of the boolean flags in `userInfo` (even an explicit
    `false`), the stored participant record has `audioEnabled = true` and
    `videoEnabled = true`, because `userInfo.audioEnabled || true` is
    always true; the record stored by `join-room` — which is also the
    payload of every `user-joined` announcement — carries both flags as
    `true`. -/
theorem C10_flags_forced_true (sid m : Nat) (ui : UserInfo) (s : ServerState) :
    (mkParticipant sid m ui).audioEnabled = true
    ∧ (mkParticipant sid m ui).videoEnabled = true
    ∧ alGet (joinRoom sid m ui s).1.participants sid = some (mkParticipant sid m ui)
    ∧ ∀ d ∈ (joinRoom sid m ui s).2.drop 1,
        d.2 = SEvent.userJoined (mkParticipant sid m ui) := by
  refine ⟨jsOr_true ui.audioEnabled, jsOr_true ui.videoEnabled, ?_, ?_⟩
  · simp [joinRoom, alGet_alSet_self]
  · intro d hd
    simp only [joinRoom, socketTo, List.drop_succ_cons, List.drop_zero,
      List.mem_map] at hd
    obtain ⟨x, _, hdx⟩ := hd
    subst hdx
    rfl

/-- C10 witness: socket 103 joins with both flags reported `false`, and is
    stored with both flags `true`. -/
theorem C10_flags_forced_true_witness :
    (mkParticipant 103 500 uiFalseFlags).audioEnabled = true
    ∧ (mkParticipant 103 500 uiFalseFlags).videoEnabled = true
    ∧ alGet (joinRoom 103 500 uiFalseFlags sAB).1.participants 103
        = some (mkParticipant 103 500 uiFalseFlags) :=
  ⟨(C10_flags_forced_true 103 500 uiFalseFlags sAB).1,
   (C10_flags_forced_true 103 500 uiFalseFlags sAB).2.1,
   (C10_flags_forced_true 103 500 uiFalseFlags sAB).2.2.1⟩

/-- C5 (counterexample): in the second MeetingRoom version, the client
    that is merely notified of a newly-joined participant immediately
    creates an initiator connection and sends an offer — it does not wait
    for the peer's offer, so (with the joiner also initiating from its
    snapshot) both sides of the pair initiate. -/
theorem C5_v2_joined_peer_initiates :
    (onUserJoinedV2 cpB stEmpty).sent = [OutMsg.offerMsg 102] := by
  decide

/-- C5 (amended): the asymmetric role assignment holds in the first
    MeetingRoom version: a `user-joined` notification sends nothing (the
    notified client is a pure responder), a snapshot entry for an unknown
    peer produces exactly one outgoing offer toward it, and the responder
    acts exactly when the peer's offer arrives, replying with one answer.
    The second version breaks the asymmetry (see the counterexample). -/
theorem C5_roles_v1 :
    (∀ (st : ClientState) (p : CParticipant), (onUserJoinedV1 p st).sent = st.sent)
    ∧ (∀ (st : ClientState) (u : CParticipant),
        u.userId ≠ st.selfUserId → alGet st.pcs u.socketId = none →
        (onRoomUsersV1 [u] st).sent = st.sent ++ [OutMsg.offerMsg u.socketId])
    ∧ (∀ (st : ClientState) (sender : Nat) (pc : PC),
        alGet st.pcs sender = some pc →
        (handleOfferV1 sender st).sent = st.sent ++ [OutMsg.answerMsg sender]) := by
  refine ⟨?_, ?_, ?_⟩
  · intro st p
    by_cases h : (p.userId != st.selfUserId) = true
    · cases hg : alGet st.pcs p.socketId with
      | some pc => simp [onUserJoinedV1, h, createPeerConnectionV1, hg]
      | none => simp [onUserJoinedV1, h, createPeerConnectionV1, hg, newPC]
    · simp [onUserJoinedV1, h]
  · intro st u hne hg
    have h : (u.userId != st.selfUserId) = true := by simpa using hne
    simp [onRoomUsersV1, h, createPeerConnectionV1, hg, newPC, hne]
  · intro st sender pc h
    simp [handleOfferV1, h]

/-- C5 witness: client 11 (state `stEmpty`): a `user-joined` for peer 12
    sends nothing, while a room snapshot containing peer 12 sends exactly
    one offer to socket 102. -/
theorem C5_roles_v1_witness :
    (onUserJoinedV1 cpB stEmpty).sent = stEmpty.sent
    ∧ (onRoomUsersV1 [cpB] stEmpty).sent = stEmpty.sent ++ [OutMsg.offerMsg 102] :=
  ⟨C5_roles_v1.1 stEmpty cpB,
   C5_roles_v1.2.1 stEmpty cpB (by decide) (by decide)⟩

/-- C6: the first version's `handleIceCandidate` re-invokes itself via a
    one-second `setTimeout` instead of keeping a queue: candidates 1
    (arriving at 0 ms) and 2 (arriving at 900 ms), with the remote
    description committed at 1050 ms, are applied as [2, 1] — candidate 2
    fires its retry at 1900 ms, before candidate 1's second retry at
    2000 ms — violating arrival order.  The second version has no queue at
    all: a candidate arriving before the remote description is dropped
    (the `addIceCandidate` rejection is caught and swallowed), leaving the
    state unchanged. -/
theorem C6_ice_not_queued :
    iceRetrySim [(0, 1), (900, 2)] 1050 10 = [2, 1]
    ∧ handleIceCandidateV2 102 7 stOnePc = stOnePc := by
  decide

/-- C7 (counterexample): the second version's `createPeerConnection` for a
    socket that already has a connection does not return the existing one:
    it allocates a fresh `RTCPeerConnection` and overwrites the map entry
    (the replaced connection is dropped without being closed). -/
theorem C7_v2_replaces_existing :
    alGet (createPeerConnectionV2 102 false stOnePc).2.pcs 102 ≠ some pcFresh
    ∧ (createPeerConnectionV2 102 false stOnePc).2 ≠ stOnePc
    ∧ pcFresh.closed = false := by
  decide

/-- C7 (amended): the first version's `createPeerConnection` is idempotent
    in the remote socket id: when a connection for `sid` already exists it
    is returned as-is and the client state is completely unchanged — no
    second connection, no replacement, no new offer.  The second version
    replaces the stored connection instead (see the counterexample). -/
theorem C7_createPeerConnection_v1_idempotent (st : ClientState) (sid : Nat)
    (pc : PC) (b : Bool) (h : alGet st.pcs sid = some pc) :
    createPeerConnectionV1 sid b st = (some pc, st) := by
  simp [createPeerConnectionV1, h]

/-- C7 witness: re-creating the existing connection for socket 102 in
    `stOnePc` returns it unchanged. -/
theorem C7_createPeerConnection_v1_idempotent_witness :
    createPeerConnectionV1 102 true stOnePc = (some pcFresh, stOnePc) :=
  C7_createPeerConnection_v1_idempotent stOnePc 102 pcFresh true (by decide)

/-- C8: `startScreenShare` / `stopScreenShare` substitute the (first)
    video sender's track on every stored peer connection and change
    nothing else about them — same `closed` flag, connection state,
    committed descriptions, applied candidates and sender layout; the only
    emission is the share/unshare hint (no offer); with zero connections
    the connection set is untouched; and `startScreenShare` installs
    `videoTrack.onended = () => stopScreenShare()`, reverting
    automatically when the screen source ends out-of-band. -/
theorem C8_screen_share_track_swap :
    (∀ (t : Track) (st : ClientState) (sid : Nat) (pc pc' : PC),
        t.kind = TrackKind.video →
        alGet st.pcs sid = some pc →
        alGet (startScreenShareClient t st).pcs sid = some pc' →
        pc'.closed = pc.closed ∧ pc'.connState = pc.connState
        ∧ pc'.localDesc = pc.localDesc ∧ pc'.remoteDesc = pc.remoteDesc
        ∧ pc'.applied = pc.applied ∧ pc'.pcId = pc.pcId
        ∧ pc'.senders.map Track.kind = pc.senders.map Track.kind
        ∧ ((firstVideo pc.senders).isSome → firstVideo pc'.senders = some t))
    ∧ (∀ (t : Track) (st : ClientState),
        (startScreenShareClient t st).sent
            = st.sent ++ [OutMsg.startShareMsg st.meetingKey]
        ∧ (startScreenShareClient t st).screenEndHandlerSet = true)
    ∧ (∀ (t : Track) (st : ClientState),
        st.pcs = [] → (startScreenShareClient t st).pcs = [])
    ∧ (∀ (t : Track) (ts : List Track) (st : ClientState) (sid : Nat) (pc pc' : PC),
        t.kind = TrackKind.video →
        alGet st.pcs sid = some pc →
        alGet (stopScreenShareClient t ts st).pcs sid = some pc' →
        pc'.closed = pc.closed ∧ pc'.connState = pc.connState
        ∧ pc'.localDesc = pc.localDesc ∧ pc'.remoteDesc = pc.remoteDesc
        ∧ pc'.applied = pc.applied ∧ pc'.pcId = pc.pcId
        ∧ pc'.senders.map Track.kind = pc.senders.map Track.kind
        ∧ ((firstVideo pc.senders).isSome → firstVideo pc'.senders = some t))
    ∧ (∀ (t : Track) (ts : List Track) (st : ClientState),
        st.pcs = [] →
        (stopScreenShareClient t ts st).pcs = []
        ∧ (stopScreenShareClient t ts st).sent
            = st.sent ++ [OutMsg.stopShareMsg st.meetingKey])
    ∧ (∀ (t : Track) (ts : List Track) (st : ClientState),
        (stopScreenShareClient t ts st).sent
            = st.sent ++ [OutMsg.stopShareMsg st.meetingKey]) := by
  refine ⟨?_, ?_, ?_, ?_, ?_, ?_⟩
  · intro t st sid pc pc' ht hpc hpc'
    simp only [startScreenShareClient] at hpc'
    rw [alGet_map_replace, hpc] at hpc'
    simp only [Option.map_some', Option.some.injEq] at hpc'
    subst hpc'
    refine ⟨rfl, rfl, rfl, rfl, rfl, rfl, ?_, ?_⟩
    · exact replaceVideoSender_kinds pc.senders t ht
    · intro hfv
      exact firstVideo_replace pc.senders t hfv ht
  · intro t st
    exact ⟨rfl, rfl⟩
  · intro t st h
    simp [startScreenShareClient, h]
  · intro t ts st sid pc pc' ht hpc hpc'
    simp only [stopScreenShareClient] at hpc'
    rw [alGet_map_replace, hpc] at hpc'
    simp only [Option.map_some', Option.some.injEq] at hpc'
    subst hpc'
    refine ⟨rfl, rfl, rfl, rfl, rfl, rfl, ?_, ?_⟩
    · exact replaceVideoSender_kinds pc.senders t ht
    · intro hfv
      exact firstVideo_replace pc.senders t hfv ht
  · intro t ts st h
    exact ⟨by simp [stopScreenShareClient, h], rfl⟩
  · intro t ts st
    rfl

/-- C8 witness: swapping the screen track into `stCam` (one established
    connection with a camera video sender) keeps every connection field
    and substitutes `screenVideo` as the video sender's track; swapping
    the camera back on the shared state `stShared` does the same in
    reverse. -/
theorem C8_screen_share_track_swap_witness :
    (pcScr.closed = pcCam.closed
    ∧ pcScr.connState = pcCam.connState
    ∧ pcScr.localDesc = pcCam.localDesc
    ∧ pcScr.remoteDesc = pcCam.remoteDesc
    ∧ pcScr.applied = pcCam.applied
    ∧ pcScr.pcId = pcCam.pcId
    ∧ pcScr.senders.map Track.kind = pcCam.senders.map Track.kind
    ∧ ((firstVideo pcCam.senders).isSome → firstVideo pcScr.senders = some screenVideo))
    ∧ (pcBack.closed = pcScr.closed
    ∧ pcBack.connState = pcScr.connState
    ∧ pcBack.localDesc = pcScr.localDesc
    ∧ pcBack.remoteDesc = pcScr.remoteDesc
    ∧ pcBack.applied = pcScr.applied
    ∧ pcBack.pcId = pcScr.pcId
    ∧ pcBack.senders.map Track.kind = pcScr.senders.map Track.kind
    ∧ ((firstVideo pcScr.senders).isSome → firstVideo pcBack.senders = some camVideo)) :=
  ⟨C8_screen_share_track_swap.1 screenVideo stCam 102 pcCam pcScr
      (by decide) (by decide) (by decide),
   C8_screen_share_track_swap.2.2.2.1 camVideo [camAudio, camVideo] stShared 102 pcScr pcBack
      (by decide) (by decide) (by decide)⟩

/-- C9 (counterexample): if the first teardown step (stopping the local
    tracks) throws, `cleanup` never emits the leave intent and never
    disconnects — the later steps are not executed, refuting "each later
    step still executes even if an earlier step throws". -/
theorem C9_cleanup_throw_skips :
    (cleanupV1 { stopThrows := true, closeThrows := false, leaveThrows := false }
        stEmpty).2.disconnected = false
    ∧ (cleanupV1 { stopThrows := true, closeThrows := false, leaveThrows := false }
        stEmpty).2.leftRoom = false
    ∧ (cleanupV1 { stopThrows := true, closeThrows := false, leaveThrows := false }
        stEmpty).1.sent = [] := by
  decide

/-- C9 (amended): `cleanup` runs its four steps — stop local tracks, close
    every peer connection, emit the leave intent, disconnect — in order
    when none throws (emitting exactly leave-then-disconnect); but the
    body has no try/catch, so a step that throws aborts all later steps. -/
theorem C9_cleanup_steps (st : ClientState) :
    ((cleanupV1 { stopThrows := false, closeThrows := false, leaveThrows := false } st).2
      = { stoppedTracks := true, closedPCs := true, leftRoom := true, disconnected := true })
    ∧ ((cleanupV1 { stopThrows := false, closeThrows := false, leaveThrows := false } st).1.sent
      = st.sent ++ [OutMsg.leaveMsg st.meetingKey, OutMsg.disconnectMsg])
    ∧ ((cleanupV1 { stopThrows := true, closeThrows := false, leaveThrows := false } st).2
      = { stoppedTracks := false, closedPCs := false, leftRoom := false, disconnected := false })
    ∧ ((cleanupV1 { stopThrows := false, closeThrows := true, leaveThrows := false } st).2
      = { stoppedTracks := true, closedPCs := false, leftRoom := false, disconnected := false })
    ∧ ((cleanupV1 { stopThrows := false, closeThrows := false, leaveThrows := true } st).2
      = { stoppedTracks := true, closedPCs := true, leftRoom := false, disconnected := false }) := by
  refine ⟨rfl, ?_, rfl, rfl, rfl⟩
  simp [cleanupV1]

end Podcast
